import Mathlib

/-!
Verification of the core logic of `delaunay.py` (d-pikachu/delaunay).

The program is shallowly embedded: each Python function of the core is
translated into a Lean definition with the same structure.  Conventions:

* A Python point `(x, y)` (a pair of Python ints) is `Point := Int × Int`.
* A color tuple `(r, g, b)` is the structure `RGB` with `Int` channels.
* Python floats appear in the source only through `math.sqrt` and float
  division.  Inside the declustering filter the square roots are used
  exclusively in order comparisons and truthiness tests, and `sqrt` is
  strictly monotone on nonnegative reals with `sqrt d = 0 ↔ d = 0`, so the
  filter is embedded with exact squared distances (`Int`), which has
  identical observable behaviour.  In the gradient-coloring block the
  square-root *values* matter, so there the float `sqrt` is abstracted as
  an explicit parameter `sqrtFn : ℚ → ℚ` and the centroid of the external
  `tri_centroid` collaborator as `cent : List Point → ℚ × ℚ`; theorems
  quantify over them.
* Python `int(x)` truncates toward zero: `truncInt`.
* The random source is abstracted as explicit streams: `rand : Nat → Point`
  gives the i-th candidate point produced at line 53 of the source, and
  `draw : Nat → Nat` gives the i-th `random.randrange` result of the
  darkening loop (so `draw i < amount` is the `randrange` contract).
* `sys.exit(code)` and uncaught exceptions are modelled by
  `Except RenderError _`: a render either produces a `RenderOutput` (the
  data handed to the PIL rasterizer, which is out of scope) or stops.
-/

abbrev Point := Int × Int

/-- A color: three integer channels, as the Python 3-tuples `(r, g, b)`. -/
structure RGB where
  r : Int
  g : Int
  b : Int
deriving DecidableEq

/-- `0 ≤ channel ≤ 255` for all three channels. -/
def rgb_in_range (c : RGB) : Prop :=
  0 ≤ c.r ∧ c.r ≤ 255 ∧ 0 ≤ c.g ∧ c.g ≤ 255 ∧ 0 ≤ c.b ∧ c.b ≤ 255

instance (c : RGB) : Decidable (rgb_in_range c) := by
  unfold rgb_in_range; infer_instance

/-- Python `int(x)`: truncation toward zero. -/
def truncInt (q : ℚ) : Int :=
  if 0 ≤ q then ⌊q⌋ else ⌈q⌉

/-- Lines 14-19: convert Cartesian coordinates to screen coordinates by
flipping `y` against the screen height (`size.2`).  The `if points:` guard
of the source is behaviourally the identity on the empty list, as is the
map. -/
def cart_to_screen (points : List Point) (size : Int × Int) : List Point :=
  points.map (fun p => (p.1, size.2 - p.2))

/-- Lines 25-40: a point on a two-stop color gradient.  `grad.1` is the
start color, `grad.2` the end color; each channel is interpolated with the
integer slope, truncated toward zero (`int(...)`), then clamped to
`[0, 255]` via `min(max(·,0),255)`. -/
def calculate_color (grad : RGB × RGB) (val : ℚ) : RGB :=
  let slope_r : Int := grad.2.r - grad.1.r
  let slope_g : Int := grad.2.g - grad.1.g
  let slope_b : Int := grad.2.b - grad.1.b
  let r := truncInt ((grad.1.r : ℚ) + (slope_r : ℚ) * val)
  let g := truncInt ((grad.1.g : ℚ) + (slope_g : ℚ) * val)
  let b := truncInt ((grad.1.b : ℚ) + (slope_b : ℚ) * val)
  ⟨min (max r 0) 255, min (max g 0) 255, min (max b 0) 255⟩

theorem truncInt_intCast (n : Int) : truncInt (n : ℚ) = n := by
  unfold truncInt
  split <;> simp

/-- Claim C7: the Cartesian-to-screen flip is involutive: applying
`cart_to_screen` twice with the same size returns the original point
list. -/
theorem cart_to_screen_involutive (points : List Point) (size : Int × Int) :
    cart_to_screen (cart_to_screen points size) size = points := by
  unfold cart_to_screen
  rw [List.map_map]
  induction points with
  | nil => rfl
  | cons p rest ih =>
    simp only [List.map_cons, Function.comp_apply] at *
    rw [ih]
    have : size.2 - (size.2 - p.2) = p.2 := by omega
    rw [this]

/-- Claim C3: for a two-stop gradient with endpoint channels in `[0,255]`,
`calculate_color` at `0` is exactly the start color and at `1` exactly the
end color; at any rational `t` each output channel equals
`start + (end - start) * t` truncated toward zero then clamped, hence lies
in `[0, 255]`. -/
theorem calculate_color_spec (grad : RGB × RGB)
    (h0 : rgb_in_range grad.1) (h1 : rgb_in_range grad.2) (t : ℚ) :
    calculate_color grad 0 = grad.1 ∧
    calculate_color grad 1 = grad.2 ∧
    rgb_in_range (calculate_color grad t) ∧
    (calculate_color grad t).r
      = min (max (truncInt ((grad.1.r : ℚ) + ((grad.2.r : ℚ) - (grad.1.r : ℚ)) * t)) 0) 255 ∧
    (calculate_color grad t).g
      = min (max (truncInt ((grad.1.g : ℚ) + ((grad.2.g : ℚ) - (grad.1.g : ℚ)) * t)) 0) 255 ∧
    (calculate_color grad t).b
      = min (max (truncInt ((grad.1.b : ℚ) + ((grad.2.b : ℚ) - (grad.1.b : ℚ)) * t)) 0) 255 := by
  obtain ⟨r0lo, r0hi, g0lo, g0hi, b0lo, b0hi⟩ := h0
  obtain ⟨r1lo, r1hi, g1lo, g1hi, b1lo, b1hi⟩ := h1
  refine ⟨?_, ?_, ?_, ?_, ?_, ?_⟩
  · unfold calculate_color
    simp only [mul_zero, add_zero, truncInt_intCast]
    have hr : min (max grad.1.r 0) 255 = grad.1.r := by omega
    have hg : min (max grad.1.g 0) 255 = grad.1.g := by omega
    have hb : min (max grad.1.b 0) 255 = grad.1.b := by omega
    rw [hr, hg, hb]
  · unfold calculate_color
    have er : (grad.1.r : ℚ) + ((grad.2.r - grad.1.r : Int) : ℚ) * 1 = ((grad.2.r : Int) : ℚ) := by
      push_cast; ring
    have eg : (grad.1.g : ℚ) + ((grad.2.g - grad.1.g : Int) : ℚ) * 1 = ((grad.2.g : Int) : ℚ) := by
      push_cast; ring
    have eb : (grad.1.b : ℚ) + ((grad.2.b - grad.1.b : Int) : ℚ) * 1 = ((grad.2.b : Int) : ℚ) := by
      push_cast; ring
    simp only [er, eg, eb, truncInt_intCast]
    have hr : min (max grad.2.r 0) 255 = grad.2.r := by omega
    have hg : min (max grad.2.g 0) 255 = grad.2.g := by omega
    have hb : min (max grad.2.b 0) 255 = grad.2.b := by omega
    rw [hr, hg, hb]
  · unfold calculate_color rgb_in_range
    refine ⟨?_, ?_, ?_, ?_, ?_, ?_⟩ <;> simp only [] <;> omega
  · unfold calculate_color
    have : (grad.1.r : ℚ) + ((grad.2.r - grad.1.r : Int) : ℚ) * t
        = (grad.1.r : ℚ) + ((grad.2.r : ℚ) - (grad.1.r : ℚ)) * t := by push_cast; ring
    simp only [this]
  · unfold calculate_color
    have : (grad.1.g : ℚ) + ((grad.2.g - grad.1.g : Int) : ℚ) * t
        = (grad.1.g : ℚ) + ((grad.2.g : ℚ) - (grad.1.g : ℚ)) * t := by push_cast; ring
    simp only [this]
  · unfold calculate_color
    have : (grad.1.b : ℚ) + ((grad.2.b - grad.1.b : Int) : ℚ) * t
        = (grad.1.b : ℚ) + ((grad.2.b : ℚ) - (grad.1.b : ℚ)) * t := by push_cast; ring
    simp only [this]

/-- The "sunshine" gradient of the registry, used as a concrete test value. -/
def sunshineGrad : RGB × RGB := (⟨255, 248, 9⟩, ⟨255, 65, 9⟩)

/-- Witness for claim C3 at the "sunshine" gradient and `t = 1/2`. -/
theorem calculate_color_spec_witness :
    calculate_color sunshineGrad 0 = sunshineGrad.1 ∧
    calculate_color sunshineGrad 1 = sunshineGrad.2 ∧
    rgb_in_range (calculate_color sunshineGrad (1/2)) ∧
    (calculate_color sunshineGrad (1/2)).r
      = min (max (truncInt ((sunshineGrad.1.r : ℚ)
          + ((sunshineGrad.2.r : ℚ) - (sunshineGrad.1.r : ℚ)) * (1/2))) 0) 255 ∧
    (calculate_color sunshineGrad (1/2)).g
      = min (max (truncInt ((sunshineGrad.1.g : ℚ)
          + ((sunshineGrad.2.g : ℚ) - (sunshineGrad.1.g : ℚ)) * (1/2))) 0) 255 ∧
    (calculate_color sunshineGrad (1/2)).b
      = min (max (truncInt ((sunshineGrad.1.b : ℚ)
          + ((sunshineGrad.2.b : ℚ) - (sunshineGrad.1.b : ℚ)) * (1/2))) 0) 255 :=
  calculate_color_spec sunshineGrad (by decide) (by decide) (1/2)

/-- Squared Euclidean distance `(p0-q0)^2 + (p1-q1)^2` between two integer
points.  The source compares `sqrt` of this value; comparisons and
truthiness agree (see the file header). -/
def dist2 (p q : Point) : Int :=
  (p.1 - q.1) ^ 2 + (p.2 - q.2) ^ 2

/-- One step of the running minimum of line 66: `if not d or q_d < d`.
`d = none` models Python `None`; the value `0` is Python-falsy, matching
`not d` for the float `0.0`. -/
def upd_min (d : Option Int) (qd : Int) : Option Int :=
  match d with
  | none => some qd
  | some dv => if dv = 0 ∨ qd < dv then some qd else some dv

/-- Lines 60-67: scan the candidate list for point `p`, stopping at the
first element equal to `p` (`if q == p: break`), keeping the running
minimum squared distance to the elements scanned so far. -/
def min_dist_to_prev (qs : List Point) (p : Point) (d : Option Int) : Option Int :=
  match qs with
  | [] => d
  | q :: rest =>
    if q = p then d
    else min_dist_to_prev rest p (upd_min d (dist2 p q))

/-- Lines 77-83: the `while` loop inserting `(d, p)` before the first entry
whose distance is not smaller than `d`; if the loop runs off the end the
pair is silently dropped, exactly as Python would. -/
def insert_tail (sp : List (Int × Point)) (d : Int) (p : Point) : List (Int × Point) :=
  match sp with
  | [] => []
  | (dv, q) :: rest =>
    if dv < d then (dv, q) :: insert_tail rest d p
    else (d, p) :: (dv, q) :: rest

/-- Distance of the last entry of the sorted list (`sorted_points[-1][0]`);
only consulted when the list is nonempty. -/
def last_dist (sp : List (Int × Point)) : Int :=
  match sp.getLast? with
  | some dp => dp.1
  | none => 0

/-- Lines 70-83: insert a distance-point pair into the rank-ordered list. -/
def insert_sorted (sp : List (Int × Point)) (d : Int) (p : Point) : List (Int × Point) :=
  match sp with
  | [] => [(d, p)]
  | _ :: _ => if d > last_dist sp then sp ++ [(d, p)] else insert_tail sp d p

/-- Lines 58-83: build `sorted_points` by iterating over the candidates;
a point whose scan produced `None` (or a Python-falsy `0.0`) is skipped by
the `if d:` test of line 68. -/
def sorted_points_of (points : List Point) : List (Int × Point) :=
  points.foldl
    (fun sp p =>
      match min_dist_to_prev points p none with
      | none => sp
      | some d => if d = 0 then sp else insert_sorted sp d p)
    []

/-- Lines 43-95: `generate_points`.  `rand i` is the i-th random candidate
point of line 53 (the claims under verification do not depend on the exact
coordinate arithmetic of the draw, so the draw is the abstraction
boundary).  When declustering, the `n_extra_points - n_points` most
clustered entries are deleted one by one (`del sorted_points[0]`); deleting
from an exhausted list raises `IndexError`, modelled by `none`.  The four
sentinel points of lines 91-94 are always appended. -/
def generate_points (rand : Nat → Point) (n_points : Nat) (area : Int × Int)
    (decluster : Bool) : Option (List Point) :=
  let cluster_fraction : Nat := if decluster then 2 else 1
  let n_extra_points := cluster_fraction * n_points
  let points := (List.range n_extra_points).map rand
  let declustered : Option (List Point) :=
    if decluster then
      let sp := sorted_points_of points
      if n_extra_points - n_points ≤ sp.length then
        some ((sp.drop (n_extra_points - n_points)).map Prod.snd)
      else none
    else some points
  declustered.map (fun ps =>
    ps ++ [(-300, -10), (area.1 + 10, -300), (area.1 + 300, area.2 + 10),
           (-100, area.2 + 300)])

/-- The ranking distance as claim C1 states it: the minimum (squared)
Euclidean distance from `p` to any OTHER candidate in the whole list, with
only the point itself excluded.  This follows the claim's words and is the
comparison yardstick for `min_dist_to_prev`. -/
def min_dist_all_others (points : List Point) (p : Point) : Option Int :=
  ((points.filter (fun q => q ≠ p)).map (fun q => dist2 p q)).min?

/-- Concrete candidate list exhibiting the prefix-only scan. -/
def ptsC1 : List Point := [(0, 0), (0, 3), (0, 4)]

/-- Claim C1 fails on the code: the inner loop of lines 62-67 stops at the
first element equal to `p` (`break`), so the computed ranking distance of
`(0,3)` is `3` (squared `9`, distance to the single preceding point
`(0,0)`) although its nearest other candidate `(0,4)` is at distance `1`;
and the first point `(0,0)` is excluded from ranking (`d = None`) even
though the input has three points, contradicting "only in the degenerate
single-point-input case". -/
theorem decluster_prefix_scan_mismatch :
    min_dist_to_prev ptsC1 (0, 3) none = some 9 ∧
    min_dist_all_others ptsC1 (0, 3) = some 1 ∧
    min_dist_to_prev ptsC1 (0, 0) none = none ∧
    min_dist_all_others ptsC1 (0, 0) = some 9 ∧
    ptsC1.length = 3 := by decide

/-- Concrete candidate stream for claim C2: four distinct points, as drawn
for `n_points = 2` with declustering enabled. -/
def randC2 : Nat → Point :=
  fun i => [((0 : Int), (0 : Int)), (0, 3), (0, 4), (10, 10)].getD i (0, 0)

/-- Claim C2 fails on the code: with `n_points = 2` and declustering
enabled, `generate_points` returns 5 points (1 surviving candidate plus the
4 sentinels), not `2 + 4 = 6`: the first candidate never enters the ranking
(see `decluster_prefix_scan_mismatch`), yet `n_extra_points - n_points`
entries are still deleted. -/
theorem generate_points_decluster_count :
    generate_points randC2 2 (100, 100) true =
      some [(10, 10), (-300, -10), (110, -300), (400, 110), (-100, 400)] ∧
    ((generate_points randC2 2 (100, 100) true).getD []).length = 5 ∧
    ¬ ((generate_points randC2 2 (100, 100) true).getD []).length = 2 + 4 := by
  decide

/-- Line 112: the supersampling factor. -/
def aa_amount : Int := 4

/-- Lines 114-151: the named gradient registry, verbatim.  (The source
calls this dictionary `gradient`; Mathlib already owns that name, hence
the `_table` suffix.) -/
def gradient_table : List (String × (RGB × RGB)) :=
  [("sunshine", (⟨255, 248, 9⟩, ⟨255, 65, 9⟩)),
   ("purples", (⟨255, 9, 204⟩, ⟨4, 137, 232⟩)),
   ("grass", (⟨255, 232, 38⟩, ⟨88, 255, 38⟩)),
   ("valentine", (⟨102, 0, 85⟩, ⟨255, 25, 216⟩)),
   ("sky", (⟨0, 177, 255⟩, ⟨9, 74, 102⟩)),
   ("ubuntu", (⟨119, 41, 83⟩, ⟨221, 72, 20⟩)),
   ("fedora", (⟨41, 65, 114⟩, ⟨60, 110, 180⟩)),
   ("debian", (⟨215, 10, 83⟩, ⟨10, 10, 10⟩)),
   ("opensuse", (⟨151, 208, 5⟩, ⟨34, 120, 8⟩))]

/-- Dictionary lookup `gradient[name]` / membership `name in gradient`. -/
def gradient_lookup (name : String) : Option (RGB × RGB) :=
  (gradient_table.find? (fun e => e.1 = name)).map (fun e => e.2)

/-- A reference image: its pixel dimensions (`background_image.size`) and
its pixel array (`pixels[x, y]`). -/
structure ImageData where
  size : Int × Int
  pix : Int × Int → RGB

/-- The resolved command-line options consumed by the pipeline (lines
154-173).  An absent `-g` or `-i` is `none`; an absent `-k` is `0` (both
`None` and `0` are falsy at line 251); absent width/height are `0` (falsy
comparisons at line 201 treat them as non-positive). -/
structure Options where
  n_points : Nat
  width : Int
  height : Int
  gradientName : Option String
  image : Option ImageData
  darken_amount : Nat
  antialias : Bool
  lines : Bool
  decluster : Bool

/-- How a render stops short of producing output: `sys.exit(code)` or an
uncaught exception. -/
inductive RenderError where
  | exitCode (code : Nat)
  | crash
deriving DecidableEq

/-- The data the core hands to the PIL rasterizer (out of scope): the
painted canvas size, the final size after the optional Lanczos resize, the
screen-space polygons, their colors, and the outline flag. -/
structure RenderOutput where
  paintSize : Int × Int
  finalSize : Int × Int
  polys : List (List Point)
  colors : List RGB
  outlines : Bool
deriving DecidableEq

/-- Lines 178-205: configuration validation and canvas-size resolution.
`gname not in gradient` holds in particular when no gradient was named, so
the second test is `gradient_lookup` failing on the (possibly absent)
name.  With an image, its dimensions override `-x`/`-y`; otherwise
non-positive width or height is rejected.  All three rejections are
`sys.exit(64)`. -/
def validate_and_size (opts : Options) : Except RenderError (Int × Int) :=
  if opts.gradientName = none ∧ opts.image.isNone then
    .error (.exitCode 64)
  else if (opts.gradientName.bind gradient_lookup) = none ∧ opts.image.isNone then
    .error (.exitCode 64)
  else
    match opts.image with
    | some img => .ok img.size
    | none =>
      if opts.width ≤ 0 ∨ opts.height ≤ 0 then .error (.exitCode 64)
      else .ok (opts.width, opts.height)

/-- Lines 229-239: image-mode coloring.  Each screen-space triangle's
centroid is clamped componentwise to `[0, dimension - 1]`, truncated to an
integer coordinate, and used to sample the reference image. -/
def image_colors (img : ImageData) (size : Int × Int) (trans : List (List Point))
    (cent : List Point → ℚ × ℚ) : List RGB :=
  trans.map (fun t =>
    let c := cent t
    img.pix (truncInt (min (max c.1 0) ((size.1 : ℚ) - 1)),
             truncInt (min (max c.2 0) ((size.2 : ℚ) - 1))))

/-- Lines 240-248: gradient-mode coloring.  The diagonal `s` is computed
once from the canvas size; each triangle of the ORIGINAL (pre-flip)
triangulation contributes `sqrt(cx^2 + cy^2) / s` at its centroid. -/
def gradient_colors (grad : RGB × RGB) (triangulation : List (List Point))
    (size : Int × Int) (cent : List Point → ℚ × ℚ) (sqrtFn : ℚ → ℚ) : List RGB :=
  let s := sqrtFn ((size.1 : ℚ) ^ 2 + (size.2 : ℚ) ^ 2)
  triangulation.map (fun t =>
    let c := cent t
    calculate_color grad (sqrtFn (c.1 ^ 2 + c.2 ^ 2) / s))

/-- Lines 226-248: the color-assignment branch.  The image, when present,
is consulted first (`if options.image:`); only otherwise is the gradient
looked up — a missing registry entry at that point would be a `KeyError`
(unreachable after validation). -/
def assign_colors (opts : Options) (size : Int × Int)
    (triangulation trans : List (List Point))
    (cent : List Point → ℚ × ℚ) (sqrtFn : ℚ → ℚ) : Except RenderError (List RGB) :=
  match opts.image with
  | some img => .ok (image_colors img size trans cent)
  | none =>
    match opts.gradientName.bind gradient_lookup with
    | some grad => .ok (gradient_colors grad triangulation size cent sqrtFn)
    | none => .error .crash

/-- Line 255: subtract the single draw `d` from all three channels,
clamping each at 0. -/
def darken_one (c : RGB) (d : Int) : RGB :=
  ⟨max (c.r - d) 0, max (c.g - d) 0, max (c.b - d) 0⟩

/-- Lines 252-256 as an indexed loop from position `j`: color `i` of the
list consumes draw `j + i`. -/
def darken_from (draw : Nat → Nat) (j : Nat) : List RGB → List RGB
  | [] => []
  | c :: rest => darken_one c (draw j) :: darken_from draw (j + 1) rest

/-- Lines 250-256: darken every color with its own `randrange` draw. -/
def darken_colors (draw : Nat → Nat) (colors : List RGB) : List RGB :=
  darken_from draw 0 colors

/-- Lines 208-276: the render pipeline after option parsing, up to the
hand-off to the PIL rasterizer: validate and size, generate points,
triangulate (external collaborator `tri`), abort on an empty triangulation
(`sys.exit(1)`), flip to screen coordinates, assign colors, optionally
darken, optionally scale for supersampling.  Division in `finalSize` is the
Python 2 integer division of line 273. -/
def main_pipeline (opts : Options) (rand : Nat → Point) (draw : Nat → Nat)
    (tri : List Point → List (List Point)) (cent : List Point → ℚ × ℚ)
    (sqrtFn : ℚ → ℚ) : Except RenderError RenderOutput :=
  match validate_and_size opts with
  | .error e => .error e
  | .ok size =>
    match generate_points rand opts.n_points size opts.decluster with
    | none => .error .crash
    | some points =>
      let triangulation := tri points
      if triangulation = [] then .error (.exitCode 1)
      else
        let trans := triangulation.map (fun t => cart_to_screen t size)
        match assign_colors opts size triangulation trans cent sqrtFn with
        | .error e => .error e
        | .ok colors0 =>
          let colors := if opts.darken_amount = 0 then colors0
                        else darken_colors draw colors0
          let paintSize := if opts.antialias then (size.1 * aa_amount, size.2 * aa_amount)
                           else size
          let polys := if opts.antialias then
                         trans.map (fun poly => poly.map (fun v => (v.1 * aa_amount, v.2 * aa_amount)))
                       else trans
          let finalSize := if opts.antialias then (paintSize.1 / aa_amount, paintSize.2 / aa_amount)
                           else paintSize
          .ok ⟨paintSize, finalSize, polys, colors, opts.lines⟩

theorem darken_from_getD (draw : Nat → Nat) (colors : List RGB) :
    ∀ j i, i < colors.length →
      (darken_from draw j colors).getD i ⟨0, 0, 0⟩
        = darken_one (colors.getD i ⟨0, 0, 0⟩) (draw (j + i)) := by
  induction colors with
  | nil => intro j i h; simp at h
  | cons c rest ih =>
    intro j i h
    cases i with
    | zero => simp [darken_from]
    | succ k =>
      simp only [darken_from, List.getD_cons_succ]
      have hk : k < rest.length := by simpa using h
      have hj : j + 1 + k = j + (k + 1) := by omega
      rw [ih (j + 1) k hk, hj]

/-- Claim C6: for colors with channels in `[0,255]` and a darken amount
`> 0`, the darkening loop uses one `randrange(amount)` draw per color
(`draw i < amount`), subtracts that single magnitude from all three
channels of color `i` with a clamp at 0, and never produces a negative
channel. -/
theorem darken_step_nonneg (colors : List RGB) (draw : Nat → Nat) (amount : Nat)
    (hamt : 0 < amount) (hdraw : ∀ i, draw i < amount)
    (hc : ∀ c ∈ colors, rgb_in_range c)
    (i : Nat) (hi : i < colors.length) :
    (darken_colors draw colors).getD i ⟨0, 0, 0⟩
      = darken_one (colors.getD i ⟨0, 0, 0⟩) (draw i) ∧
    0 ≤ ((darken_colors draw colors).getD i ⟨0, 0, 0⟩).r ∧
    0 ≤ ((darken_colors draw colors).getD i ⟨0, 0, 0⟩).g ∧
    0 ≤ ((darken_colors draw colors).getD i ⟨0, 0, 0⟩).b := by
  have h := darken_from_getD draw colors 0 i hi
  simp only [Nat.zero_add] at h
  unfold darken_colors
  refine ⟨h, ?_, ?_, ?_⟩ <;> rw [h] <;> exact le_max_right _ _

/-- Concrete color list for the C6 witness. -/
def colorsW : List RGB := [⟨100, 150, 200⟩]

/-- Constant draw stream used by witnesses. -/
def drawW : Nat → Nat := fun _ => 5

/-- Witness for claim C6: one color, draw 5, amount 10. -/
theorem darken_step_nonneg_witness :
    (darken_colors drawW colorsW).getD 0 ⟨0, 0, 0⟩
      = darken_one (colorsW.getD 0 ⟨0, 0, 0⟩) (drawW 0) ∧
    0 ≤ ((darken_colors drawW colorsW).getD 0 ⟨0, 0, 0⟩).r ∧
    0 ≤ ((darken_colors drawW colorsW).getD 0 ⟨0, 0, 0⟩).g ∧
    0 ≤ ((darken_colors drawW colorsW).getD 0 ⟨0, 0, 0⟩).b :=
  darken_step_nonneg colorsW drawW 10 (by decide)
    (by intro i; show (5 : Nat) < 10; decide) (by decide) 0 (by decide)

/-- Claim C4: in gradient mode (no image, gradient name resolving in the
registry), the assigned colors are exactly `calculate_color` of
`sqrtFn(cx^2 + cy^2) / sqrtFn(W^2 + H^2)` at the centroid of each triangle
of the ORIGINAL, pre-screen-flip triangulation; the screen-space `trans`
list is not consulted. -/
theorem gradient_mode_uses_preflip_centroid (opts : Options) (g : String)
    (grad : RGB × RGB) (size : Int × Int) (triangulation trans : List (List Point))
    (cent : List Point → ℚ × ℚ) (sqrtFn : ℚ → ℚ)
    (himg : opts.image = none) (hname : opts.gradientName = some g)
    (hgrad : gradient_lookup g = some grad) :
    assign_colors opts size triangulation trans cent sqrtFn =
      .ok (triangulation.map (fun t =>
        calculate_color grad (sqrtFn ((cent t).1 ^ 2 + (cent t).2 ^ 2) /
          sqrtFn ((size.1 : ℚ) ^ 2 + (size.2 : ℚ) ^ 2)))) := by
  unfold assign_colors
  rw [himg, hname, Option.some_bind, hgrad]
  unfold gradient_colors
  rfl

/-- Options selecting the "sunshine" gradient and no image. -/
def optsGrad : Options :=
  { n_points := 0, width := 100, height := 100, gradientName := some "sunshine",
    image := none, darken_amount := 0, antialias := false, lines := false,
    decluster := false }

/-- A triangulator returning one fixed triangle, for witnesses. -/
def triSingle : List Point → List (List Point) := fun _ => [[(0, 0), (1, 0), (0, 1)]]

/-- A triangulator returning no partition, for witnesses. -/
def triNone : List Point → List (List Point) := fun _ => []

/-- Constant centroid collaborator used by witnesses. -/
def centZero : List Point → ℚ × ℚ := fun _ => (0, 0)

/-- Constant square-root abstraction used by witnesses. -/
def sqrtZero : ℚ → ℚ := fun _ => 0

/-- Witness for claim C4 at concrete inputs (note the empty `trans`). -/
theorem gradient_mode_uses_preflip_centroid_witness :
    assign_colors optsGrad (100, 100) [[(0, 0), (1, 0), (0, 1)]] [] centZero sqrtZero =
      .ok ([[(0, 0), (1, 0), (0, 1)]].map (fun t =>
        calculate_color sunshineGrad (sqrtZero ((centZero t).1 ^ 2 + (centZero t).2 ^ 2) /
          sqrtZero ((100 : ℚ) ^ 2 + (100 : ℚ) ^ 2)))) :=
  gradient_mode_uses_preflip_centroid optsGrad "sunshine" sunshineGrad (100, 100)
    [[(0, 0), (1, 0), (0, 1)]] [] centZero sqrtZero rfl rfl rfl

/-- Claim C8: with no reference image and no gradient name resolving in
the registry (absent or unknown), the program exits with code 64.  The
conclusion holds for EVERY random stream, triangulator and centroid
collaborator: the failure is decided before any point generation,
triangulation or rendering work, and no output is produced. -/
theorem missing_coloring_source_exits (opts : Options) (rand : Nat → Point)
    (draw : Nat → Nat) (tri : List Point → List (List Point))
    (cent : List Point → ℚ × ℚ) (sqrtFn : ℚ → ℚ)
    (himg : opts.image = none)
    (hg : opts.gradientName = none ∨ opts.gradientName.bind gradient_lookup = none) :
    main_pipeline opts rand draw tri cent sqrtFn = .error (.exitCode 64) := by
  have hnone : opts.image.isNone = true := by rw [himg]; rfl
  have hval : validate_and_size opts = .error (.exitCode 64) := by
    unfold validate_and_size
    by_cases h0 : opts.gradientName = none
    · rw [if_pos ⟨h0, hnone⟩]
    · have h' : opts.gradientName.bind gradient_lookup = none := by
        rcases hg with h | h
        · exact absurd h h0
        · exact h
      rw [if_neg (fun hc => h0 hc.1), if_pos ⟨h', hnone⟩]
  unfold main_pipeline
  rw [hval]

/-- Options with neither a gradient nor an image. -/
def optsNoSource : Options :=
  { n_points := 1, width := 100, height := 100, gradientName := none,
    image := none, darken_amount := 0, antialias := false, lines := false,
    decluster := false }

/-- Constant candidate stream used by witnesses. -/
def randAny : Nat → Point := fun _ => (0, 0)

/-- Witness for claim C8 at concrete inputs. -/
theorem missing_coloring_source_exits_witness :
    main_pipeline optsNoSource randAny drawW triSingle centZero sqrtZero =
      .error (.exitCode 64) :=
  missing_coloring_source_exits optsNoSource randAny drawW triSingle centZero
    sqrtZero rfl (Or.inl rfl)

/-- Claim C9: when the external triangulator returns no partition for the
generated point set, the render exits with code 1 — after validation and
point generation, before any coloring or painting — and produces no
output; nothing in the pipeline retries. -/
theorem triangulation_failure_aborts (opts : Options) (rand : Nat → Point)
    (draw : Nat → Nat) (tri : List Point → List (List Point))
    (cent : List Point → ℚ × ℚ) (sqrtFn : ℚ → ℚ)
    (size : Int × Int) (pts : List Point)
    (hval : validate_and_size opts = .ok size)
    (hgen : generate_points rand opts.n_points size opts.decluster = some pts)
    (htri : tri pts = []) :
    main_pipeline opts rand draw tri cent sqrtFn = .error (.exitCode 1) := by
  unfold main_pipeline
  rw [hval]
  simp only [hgen, htri]
  rfl

/-- Witness for claim C9 at concrete inputs: a triangulator that always
fails on the four sentinel points generated for `n_points = 0`. -/
theorem triangulation_failure_aborts_witness :
    main_pipeline optsGrad randAny drawW triNone centZero sqrtZero =
      .error (.exitCode 1) :=
  triangulation_failure_aborts optsGrad randAny drawW triNone centZero sqrtZero
    (100, 100) [(-300, -10), (110, -300), (400, 110), (-100, 400)]
    rfl rfl rfl

/-- Claim C10: when both a gradient name and a reference image are
configured, the render is identical to the render with the gradient
selection dropped (no configuration error), and the color-assignment step
takes every triangle's color from the image. -/
theorem image_supersedes_gradient (opts : Options) (img : ImageData) (g : String)
    (rand : Nat → Point) (draw : Nat → Nat)
    (tri : List Point → List (List Point)) (cent : List Point → ℚ × ℚ)
    (sqrtFn : ℚ → ℚ) (size : Int × Int) (triangulation trans : List (List Point))
    (himg : opts.image = some img) (hg : opts.gradientName = some g) :
    main_pipeline opts rand draw tri cent sqrtFn =
      main_pipeline { opts with gradientName := none } rand draw tri cent sqrtFn ∧
    assign_colors opts size triangulation trans cent sqrtFn =
      .ok (image_colors img size trans cent) := by
  constructor
  · unfold main_pipeline validate_and_size assign_colors
    simp [himg]
  · unfold assign_colors
    rw [himg]

/-- The 1×1 reference image of constant color (10, 20, 30). -/
def imgW : ImageData := ⟨(1, 1), fun _ => ⟨10, 20, 30⟩⟩

/-- Options with both a gradient name and a reference image. -/
def optsBoth : Options :=
  { n_points := 0, width := 7, height := 9, gradientName := some "sunshine",
    image := some imgW, darken_amount := 0, antialias := false, lines := false,
    decluster := false }

/-- Witness for claim C10 at concrete inputs. -/
theorem image_supersedes_gradient_witness :
    main_pipeline optsBoth randAny drawW triSingle centZero sqrtZero =
      main_pipeline { optsBoth with gradientName := none } randAny drawW
        triSingle centZero sqrtZero ∧
    assign_colors optsBoth (1, 1) [] [] centZero sqrtZero =
      .ok (image_colors imgW (1, 1) [] centZero) :=
  image_supersedes_gradient optsBoth imgW "sunshine" randAny drawW triSingle
    centZero sqrtZero (1, 1) [] [] rfl rfl

theorem map_const_replicate {α : Type} (l : List α) (f : α → RGB) (c : RGB)
    (h : ∀ x, f x = c) : l.map f = List.replicate (l.map f).length c := by
  induction l with
  | nil => rfl
  | cons a rest ih =>
    simp only [List.map_cons, List.length_cons, List.replicate_succ,
      List.cons.injEq]
    exact ⟨h a, ih⟩

/-- Claim C5: in image mode with darkening disabled, each screen-space
centroid is clamped into the image before sampling (see `image_colors`),
so with a 1×1 reference image of constant color (10, 20, 30) every
triangle color of a successful render is exactly (10, 20, 30). -/
theorem image_mode_1x1_constant (opts : Options) (img : ImageData)
    (rand : Nat → Point) (draw : Nat → Nat)
    (tri : List Point → List (List Point)) (cent : List Point → ℚ × ℚ)
    (sqrtFn : ℚ → ℚ) (out : RenderOutput)
    (himg : opts.image = some img) (hsz : img.size = (1, 1))
    (hpix : ∀ xy : Int × Int, img.pix xy = ⟨10, 20, 30⟩)
    (hdark : opts.darken_amount = 0)
    (hok : main_pipeline opts rand draw tri cent sqrtFn = .ok out) :
    out.colors = List.replicate out.colors.length ⟨10, 20, 30⟩ := by
  have hval : validate_and_size opts = .ok img.size := by
    unfold validate_and_size
    rw [himg]
    simp
  unfold main_pipeline at hok
  rw [hval] at hok
  cases hgen : generate_points rand opts.n_points img.size opts.decluster with
  | none =>
    simp only [hgen] at hok
    exact Except.noConfusion hok
  | some pts =>
    simp only [hgen] at hok
    by_cases htri : tri pts = []
    · rw [htri] at hok
      simp only [if_pos] at hok
      exact Except.noConfusion hok
    · rw [if_neg htri] at hok
      unfold assign_colors at hok
      rw [himg] at hok
      simp only [hdark, if_pos] at hok
      obtain rfl : out = _ := (Except.ok.inj hok).symm
      simp only []
      unfold image_colors
      apply map_const_replicate
      intro t
      exact hpix _

/-- Options configuring only the 1×1 constant reference image. -/
def optsImg : Options :=
  { n_points := 0, width := 0, height := 0, gradientName := none,
    image := some imgW, darken_amount := 0, antialias := false, lines := false,
    decluster := false }

/-- The successful render produced by the C5 witness inputs. -/
def outW : RenderOutput :=
  ⟨(1, 1), (1, 1), [[(0, 1), (1, 1), (0, 0)]], [⟨10, 20, 30⟩], false⟩

/-- Witness for claim C5 at concrete inputs. -/
theorem image_mode_1x1_constant_witness :
    outW.colors = List.replicate outW.colors.length ⟨10, 20, 30⟩ :=
  image_mode_1x1_constant optsImg imgW randAny drawW triSingle centZero sqrtZero
    outW rfl rfl (fun _ => rfl) rfl (by rfl)
